import Mathlib

/-! # wallbox: measurement acquisition and runtime accrual

A shallow embedding of `pkg/wallbox/wallbox.go` (`New`, `SetMeterURL`, `power`,
`readMeter`, `Read`) and of `cmd/server.go` (`calcRuntime` and its `runtime`
closure, one loop iteration at a time).

Modelling conventions
* `float64` is `F64`: either `nan` or a finite value carried as an exact
  rational.  Arithmetic is exact on finite values and propagates `nan`;
  comparisons with `nan` are false.  Rounding and infinities are not modelled.
* `time.Time` is an integer count of nanoseconds on the monotonic clock,
  `time.Duration` an integer count of nanoseconds; the saturation of a
  duration at the ends of the 64-bit range is not modelled, and
  `Duration.Hours` is the exact quotient by one hour.
* Every `time.Now()` of the source is an explicit clock-reading argument.
* The outcome of the HTTP GET and JSON decode performed by `read` is an
  argument: a function from the requested URL to an error or a decoded body.
* Go maps are association lists read with `List.lookup`.
* Mutexes and log output are omitted.
-/

namespace Wallbox

/-! ## float64 -/

/-- Model of `float64`: not-a-number, or a finite value kept exactly. -/
inductive F64 where
  | nan : F64
  | val (q : ℚ) : F64
  deriving DecidableEq

namespace F64

/-- Float addition: exact on finite values, `nan` propagates. -/
def add : F64 → F64 → F64
  | val a, val b => val (a + b)
  | _, _ => nan

/-- Float subtraction: exact on finite values, `nan` propagates. -/
def sub : F64 → F64 → F64
  | val a, val b => val (a - b)
  | _, _ => nan

/-- Float `>`: false as soon as one side is `nan`. -/
def gt : F64 → F64 → Bool
  | val a, val b => decide (b < a)
  | _, _ => false

/-- Float `>=`: false as soon as one side is `nan`. -/
def ge : F64 → F64 → Bool
  | val a, val b => decide (b ≤ a)
  | _, _ => false

end F64

/-! ## time -/

/-- Model of `time.Time`: nanoseconds on the monotonic clock. -/
abbrev Time := Int

/-- Model of `time.Duration`: nanoseconds. -/
abbrev Duration := Int

/-- The constant `time.Second`. -/
def Second : Duration := 1000000000

/-- The constant `time.Hour`. -/
def Hour : Duration := 3600000000000

/-- The method `Duration.Hours`: the duration as a floating-point number of hours. -/
def Hours (d : Duration) : F64 := F64.val ((d : ℚ) / (Hour : ℚ))

/-- The function `time.Since` evaluated when the clock reads `now`. -/
def Since (now t : Time) : Duration := now - t

/-! ## pkg/wallbox -/

/-- Type `State` of the source, a string. -/
abbrev State := String

/-- Constant `On`. -/
def On : State := "on"

/-- Constant `Off`. -/
def Off : State := "off"

/-- Constant `ThresholdWallbox`. -/
def ThresholdWallbox : F64 := F64.val 11000

/-- Errors of the package.  `meterDoesntExists meter` is
`fmt.Errorf("meter %q doesn't exists", meter)`; the other three are what `read`
can return. -/
inductive Error where
  | transport (msg : String) : Error
  | decode (msg : String) : Error
  | timeout : Error
  | meterDoesntExists (meter : String) : Error
  deriving DecidableEq

/-- Struct `Measurements` (the embedded mutex is omitted; `meterURL` is `config.meterURL`). -/
structure Measurements where
  Timestamp : Time
  Power : F64
  Energy : F64
  State : State
  Runtime : F64
  meterURL : String
  deriving DecidableEq

/-- Struct `measurementURLBody`. -/
structure measurementURLBody where
  Value : F64
  deriving DecidableEq

/-- Struct `meterURLBody`. -/
structure meterURLBody where
  Timestamp : Time
  Measurand : List (String × measurementURLBody)

/-- Struct `currentDataURLBody`. -/
structure currentDataURLBody where
  Meter : List (String × meterURLBody)

/-- What the HTTP GET and JSON decode of `read` deliver for a URL. -/
abbrev Net := String → Except Error currentDataURLBody

/-- Function `New`: the zero value of `Measurements`. -/
def New : Measurements :=
  { Timestamp := 0, Power := F64.val 0, Energy := F64.val 0, State := "",
    Runtime := F64.val 0, meterURL := "" }

/-- Method `SetMeterURL`. -/
def SetMeterURL (m : Measurements) (url : String) : Measurements :=
  { m with meterURL := url }

/-- Method `currentDataURLBody.power`: the `"p"` measurand of a meter, or `NaN`
and the error naming the meter. -/
def power (c : currentDataURLBody) (meter : String) : F64 × Option Error :=
  match c.Meter.lookup meter with
  | some b =>
    match b.Measurand.lookup "p" with
    | some v => (v.Value, none)
    | none => (F64.nan, some (Error.meterDoesntExists meter))
  | none => (F64.nan, some (Error.meterDoesntExists meter))

/-- Method `boilerP`. -/
def boilerP (c : currentDataURLBody) : F64 × Option Error := power c "boiler"

/-- Method `dryerP`. -/
def dryerP (c : currentDataURLBody) : F64 × Option Error := power c "dryer"

/-- Method `heatpumpP`. -/
def heatpumpP (c : currentDataURLBody) : F64 × Option Error := power c "heatpump"

/-- Method `inverterP`. -/
def inverterP (c : currentDataURLBody) : F64 × Option Error := power c "inverter"

/-- Method `primaryP`. -/
def primaryP (c : currentDataURLBody) : F64 × Option Error := power c "primarymeter"

/-- Method `readMeter`: the receiver afterwards and the returned error. -/
def readMeter (m : Measurements) (net : Net) : Measurements × Option Error :=
  match net m.meterURL with
  | .error e => (m, some e)
  | .ok r =>
    match boilerP r with
    | (_, some e) => (m, some e)
    | (boiler, none) =>
      match heatpumpP r with
      | (_, some e) => (m, some e)
      | (heatpump, none) =>
        match inverterP r with
        | (_, some e) => (m, some e)
        | (inverter, none) =>
          match primaryP r with
          | (_, some e) => (m, some e)
          | (primary, none) =>
            ({ m with Power := F64.add (F64.sub (F64.sub primary heatpump) boiler) inverter },
              none)

/-- Method `Read`: the receiver afterwards and the returned error; `now` is the
clock reading stored in `Timestamp`. -/
def Read (m : Measurements) (net : Net) (now : Time) : Measurements × Option Error :=
  let data := SetMeterURL New m.meterURL
  let (data, err) := readMeter data net
  let m :=
    if F64.gt data.Power ThresholdWallbox then
      { m with State := On, Power := data.Power }
    else
      { m with State := Off, Power := F64.val 0 }
  ({ m with Runtime := data.Runtime, Timestamp := now }, err)

/-! ## cmd -/

/-- Struct `heatPumpRuntime` (`data` is the pointed-to snapshot). -/
structure heatPumpRuntime where
  data : Measurements
  lastState : State
  lastRuntime : F64
  lastStateDate : Time
  deriving DecidableEq

/-- The closure `runtime` of `calcRuntime`.  Returns `runTime` and the new
`*lastStateDate` and `*lastState`.  `n1` is the clock read by the `time.Now()`
of the inner `if`, `n2` the clock read by `time.Since`, `n3` the clock read by
the last `time.Now()`. -/
def runtime (state : State) (lastStateDate : Time) (lastState : State)
    (n1 n2 n3 : Time) : F64 × Time × State :=
  if state = On then
    let lastStateDate := if lastState ≠ On then n1 else lastStateDate
    let runTime := Hours (Since n2 lastStateDate)
    (runTime, n3, state)
  else
    (F64.val 0, lastStateDate, state)

/-- One iteration of the loop of `calcRuntime`: `tRead` is the clock stored by
`Read`, `n1 n2 n3` are the clock readings of the `runtime` closure. -/
def calcRuntimeCycle (r : heatPumpRuntime) (net : Net) (tRead n1 n2 n3 : Time) :
    heatPumpRuntime :=
  let temp := r.data
  match Read temp net tRead with
  | (_, some _) => r
  | (temp, none) =>
    let data := temp
    let (runTime, lastStateDate, lastState) :=
      runtime data.State r.lastStateDate r.lastState n1 n2 n3
    { r with
      data := { data with Runtime := F64.add data.Runtime runTime }
      lastStateDate := lastStateDate
      lastState := lastState }

/-- A sequence of loop iterations, one network outcome and four clock readings each. -/
def calcRuntime (r : heatPumpRuntime) : List (Net × Time × Time × Time × Time) → heatPumpRuntime
  | [] => r
  | (net, tRead, n1, n2, n3) :: rest =>
    calcRuntime (calcRuntimeCycle r net tRead n1 n2 n3) rest

/-! ## The accumulator as the specification words it -/

/-- The specification's `accrue(newState, now, &lastState, &lastTransitionTime)`:
returns `runtimeDelta` and the new `lastState` and `lastTransitionTime`. -/
def accrue (newState : State) (now : Time) (lastState : State) (lastTransitionTime : Time) :
    F64 × State × Time :=
  if newState = On then
    let t := if lastState ≠ On then now else lastTransitionTime
    (Hours (now - t), newState, now)
  else
    (F64.val 0, newState, lastTransitionTime)

/-! ## Reading a decoded body -/

/-- The Go expression `c.Meter[meter].Measurand[key].Value` guarded by both `ok`
flags: the decoded value when the meter and its measurand are present. -/
def measurand (c : currentDataURLBody) (meter key : String) : Option F64 :=
  match c.Meter.lookup meter with
  | some b =>
    match b.Measurand.lookup key with
    | some v => some v.Value
    | none => none
  | none => none

/-- The first meter of `order` for which the reading carries no `"p"` measurand. -/
def firstMissing (order : List String) (c : currentDataURLBody) : Option String :=
  order.find? (fun meter => (measurand c meter "p").isNone)

/-- The order in which `readMeter` looks the meters up. -/
def lookupOrder : List String := ["boiler", "heatpump", "inverter", "primarymeter"]

/-! ## Sample inputs -/

/-- A meter entry carrying only a `"p"` measurand. -/
def meterP (name : String) (p : ℚ) : String × meterURLBody :=
  (name, { Timestamp := 0, Measurand := [("p", { Value := F64.val p })] })

/-- A reading with the four required meters. -/
def sampleReading (primary heatpump boiler inverter : ℚ) : currentDataURLBody :=
  { Meter := [meterP "primarymeter" primary, meterP "heatpump" heatpump,
              meterP "boiler" boiler, meterP "inverter" inverter] }

/-- The reading primary 12000, heatpump 500, boiler 300, inverter 200. -/
def sampleOn : currentDataURLBody := sampleReading 12000 500 300 200

/-- The reading primary 10000, heatpump 500, boiler 300, inverter 200. -/
def sampleOff : currentDataURLBody := sampleReading 10000 500 300 200

/-- The reading primary 11600, heatpump 500, boiler 300, inverter 200. -/
def sampleThreshold : currentDataURLBody := sampleReading 11600 500 300 200

/-- A reading without a heatpump entry. -/
def sampleNoHeatpump : currentDataURLBody :=
  { Meter := [meterP "primarymeter" 12000, meterP "boiler" 300, meterP "inverter" 200] }

/-- A reading without primary meter and without boiler. -/
def sampleNoPrimaryNoBoiler : currentDataURLBody :=
  { Meter := [meterP "heatpump" 500, meterP "inverter" 200] }

/-- A snapshot with five accumulated hours. -/
def sampleData : Measurements :=
  { Timestamp := 0, Power := F64.val 0, Energy := F64.val 0, State := Off,
    Runtime := F64.val 5, meterURL := "http://meter" }

/-- A polling state around `sampleData`, last seen off at time zero. -/
def sampleRuntime : heatPumpRuntime :=
  { data := sampleData, lastState := Off, lastRuntime := F64.val 5, lastStateDate := 0 }

/-- A snapshot classified on, with five accumulated hours. -/
def sampleDataOn : Measurements :=
  { Timestamp := 0, Power := F64.val 11400, Energy := F64.val 0, State := On,
    Runtime := F64.val 5, meterURL := "http://meter" }

/-- A polling state around `sampleDataOn`, last seen on at time zero. -/
def sampleRuntimeOn : heatPumpRuntime :=
  { data := sampleDataOn, lastState := On, lastRuntime := F64.val 5, lastStateDate := 0 }

end Wallbox

/-! ## pkg/debug -/

namespace Dbg

/-- An `io.Writer` value: `ioutil.Discard`, or some other writer told apart by a number. -/
inductive Writer where
  | Discard : Writer
  | other (id : Nat) : Writer
  deriving DecidableEq

/-- What `log.New(out, pre, flags)` keeps of its arguments. -/
structure Logger where
  out : Writer
  pre : String
  flag : Nat
  deriving DecidableEq

/-- Constant `Info`, `1 << iota` at `iota = 0`. -/
def Info : Int := 1

/-- Constant `Warning`, `1 << iota` at `iota = 1`. -/
def Warning : Int := 2

/-- Constant `Error`, `1 << iota` at `iota = 2`. -/
def Error : Int := 4

/-- Constant `Debug`, `1 << iota` at `iota = 3`. -/
def Debug : Int := 8

/-- Constant `Trace`, `1 << iota` at `iota = 4`. -/
def Trace : Int := 16

/-- Constant `Fatal`, `1 << iota` at `iota = 5`. -/
def Fatal : Int := 32

/-- Constant `Standard`. -/
def Standard : Int := Int.lor (Int.lor (Int.lor Warning Info) Error) Fatal

/-- Constant `Full`. -/
def Full : Int :=
  Int.lor (Int.lor (Int.lor (Int.lor (Int.lor Warning Info) Error) Fatal) Debug) Trace

/-- The logger flags `log.Ldate|log.Lmicroseconds|log.Lshortfile|log.Lmsgprefix`. -/
def shortFlags : Nat := 1 ||| 4 ||| 16 ||| 64

/-- The logger flags `log.Ldate|log.Lmicroseconds|log.Llongfile|log.Lmsgprefix`. -/
def longFlags : Nat := 1 ||| 4 ||| 8 ||| 64

/-- The six package-level loggers. -/
structure Loggers where
  WarningLog : Logger
  InfoLog : Logger
  ErrorLog : Logger
  DebugLog : Logger
  TraceLog : Logger
  FatalLog : Logger
  deriving DecidableEq

/-- Function `SetDebug`: the six loggers it installs.  The `&` of the source is
`Int.land`, the bitwise and of integers in two's complement. -/
def SetDebug (w : Writer) (flag : Int) : Loggers :=
  let warningHandle := if Int.land flag Info ≠ 0 then w else Writer.Discard
  let infoHandle := if Int.land flag Warning ≠ 0 then w else Writer.Discard
  let errorHandle := if Int.land flag Error ≠ 0 then w else Writer.Discard
  let debugHandle := if Int.land flag Debug ≠ 0 then w else Writer.Discard
  let traceHandle := if Int.land flag Trace ≠ 0 then w else Writer.Discard
  let fatalHandle := if Int.land flag Fatal ≠ 0 then w else Writer.Discard
  { InfoLog := { out := warningHandle, pre := "INFO: ", flag := shortFlags }
    WarningLog := { out := infoHandle, pre := "WARNING: ", flag := shortFlags }
    ErrorLog := { out := errorHandle, pre := "ERROR: ", flag := shortFlags }
    DebugLog := { out := debugHandle, pre := "DEBUG: ", flag := shortFlags }
    TraceLog := { out := traceHandle, pre := "TRACE: ", flag := shortFlags }
    FatalLog := { out := fatalHandle, pre := "FATAL: ", flag := longFlags } }

end Dbg

namespace Wallbox

/-! ## Basic facts -/

theorem On_ne_Off : On ≠ Off := by decide

theorem Off_ne_On : Off ≠ On := by decide

theorem Hours_self (t : Time) : Hours (Since t t) = F64.val 0 := by
  simp [Hours, Since]

/-- The closure on an `On` cycle. -/
theorem runtime_on (T : Time) (ls : State) (n1 n2 n3 : Time) :
    runtime On T ls n1 n2 n3
      = (Hours (Since n2 (if ls ≠ On then n1 else T)), n3, On) := by
  simp [runtime]

/-- The closure on a cycle that is not `On`. -/
theorem runtime_not_on (s : State) (hs : s ≠ On) (T : Time) (ls : State) (n1 n2 n3 : Time) :
    runtime s T ls n1 n2 n3 = (F64.val 0, T, s) := by
  simp [runtime, hs]

/-! ## `power` and `readMeter` -/

/-- Lookup succeeds: `power` returns the stored value and no error. -/
theorem power_found (c : currentDataURLBody) (meter : String) (b : meterURLBody)
    (v : measurementURLBody) (hb : c.Meter.lookup meter = some b)
    (hv : b.Measurand.lookup "p" = some v) : power c meter = (v.Value, none) := by
  simp [power, hb, hv]

/-- Lookup fails: `power` returns `NaN` and the error naming the meter. -/
theorem power_missing (c : currentDataURLBody) (meter : String)
    (h : c.Meter.lookup meter = none ∨
      ∃ b, c.Meter.lookup meter = some b ∧ b.Measurand.lookup "p" = none) :
    power c meter = (F64.nan, some (Error.meterDoesntExists meter)) := by
  rcases h with h | ⟨b, hb, hp⟩
  · simp [power, h]
  · simp [power, hb, hp]

/-- The error of `power`, when there is one, names the meter asked for. -/
theorem power_cases (c : currentDataURLBody) (meter : String) :
    (∃ v, power c meter = (v, none)) ∨
      power c meter = (F64.nan, some (Error.meterDoesntExists meter)) := by
  cases hb : c.Meter.lookup meter with
  | none => right; simp [power, hb]
  | some b =>
    cases hv : b.Measurand.lookup "p" with
    | none => right; simp [power, hb, hv]
    | some v => left; exact ⟨v.Value, by simp [power, hb, hv]⟩

/-- The method `power` in terms of `measurand`. -/
theorem power_eq (c : currentDataURLBody) (meter : String) :
    power c meter =
      match measurand c meter "p" with
      | some v => (v, none)
      | none => (F64.nan, some (Error.meterDoesntExists meter)) := by
  cases hb : c.Meter.lookup meter with
  | none => simp [power, measurand, hb]
  | some b =>
    cases hv : b.Measurand.lookup "p" with
    | none => simp [power, measurand, hb, hv]
    | some v => simp [power, measurand, hb, hv]

theorem power_of_measurand (c : currentDataURLBody) (meter : String) (v : F64)
    (h : measurand c meter "p" = some v) : power c meter = (v, none) := by
  rw [power_eq, h]

theorem power_of_measurand_none (c : currentDataURLBody) (meter : String)
    (h : measurand c meter "p" = none) :
    power c meter = (F64.nan, some (Error.meterDoesntExists meter)) := by
  rw [power_eq, h]

/-- No `"p"` measurand: the meter has no entry, or its entry has no `"p"`. -/
theorem measurand_none_iff (c : currentDataURLBody) (meter : String) :
    measurand c meter "p" = none ↔
      (c.Meter.lookup meter = none ∨
        ∃ b, c.Meter.lookup meter = some b ∧ b.Measurand.lookup "p" = none) := by
  cases hb : c.Meter.lookup meter with
  | none => simp [measurand, hb]
  | some b =>
    cases hv : b.Measurand.lookup "p" with
    | none =>
      simp only [measurand, hb, hv]
      exact ⟨fun _ => Or.inr ⟨b, rfl, hv⟩, fun _ => trivial⟩
    | some v =>
      simp only [measurand, hb, hv]
      constructor
      · intro h; cases h
      · rintro (h | ⟨b0, h0, h1⟩)
        · cases h
        · cases h0; rw [hv] at h1; cases h1

/-- All four lookups succeed: `readMeter` stores the derived power. -/
theorem readMeter_found (m : Measurements) (net : Net) (r : currentDataURLBody)
    (p h b i : F64) (hnet : net m.meterURL = .ok r)
    (hb : power r "boiler" = (b, none)) (hh : power r "heatpump" = (h, none))
    (hi : power r "inverter" = (i, none)) (hp : power r "primarymeter" = (p, none)) :
    readMeter m net = ({ m with Power := F64.add (F64.sub (F64.sub p h) b) i }, none) := by
  simp [readMeter, hnet, boilerP, heatpumpP, inverterP, primaryP, hb, hh, hi, hp]

/-- The fetch fails: `readMeter` returns its error and leaves the receiver alone. -/
theorem readMeter_fetch_error (m : Measurements) (net : Net) (e : Error)
    (hnet : net m.meterURL = .error e) : readMeter m net = (m, some e) := by
  simp [readMeter, hnet]

/-- Whenever `readMeter` returns an error the receiver is unchanged. -/
theorem readMeter_error_unchanged (m : Measurements) (net : Net) (e : Error)
    (he : (readMeter m net).2 = some e) : (readMeter m net).1 = m := by
  unfold readMeter at he ⊢
  cases hn : net m.meterURL with
  | error e0 => simp
  | ok r =>
    simp only [hn] at he ⊢
    rcases hb : boilerP r with ⟨vb, _ | eb⟩ <;> simp only [hb] at he ⊢
    rcases hh : heatpumpP r with ⟨vh, _ | eh⟩ <;> simp only [hh] at he ⊢
    rcases hi : inverterP r with ⟨vi, _ | ei⟩ <;> simp only [hi] at he ⊢
    rcases hp : primaryP r with ⟨vp, _ | ep⟩ <;> simp only [hp] at he ⊢
    simp at he

/-- The method `readMeter` never touches `Runtime`. -/
theorem readMeter_Runtime (m : Measurements) (net : Net) :
    (readMeter m net).1.Runtime = m.Runtime := by
  unfold readMeter
  cases hn : net m.meterURL with
  | error e0 => simp
  | ok r =>
    simp only [hn]
    rcases hb : boilerP r with ⟨vb, _ | eb⟩ <;> simp only [hb]
    rcases hh : heatpumpP r with ⟨vh, _ | eh⟩ <;> simp only [hh]
    rcases hi : inverterP r with ⟨vi, _ | ei⟩ <;> simp only [hi]
    rcases hp : primaryP r with ⟨vp, _ | ep⟩ <;> simp only [hp]

/-! ## `Read` -/

/-- The error of `Read` is the error of `readMeter` on the fresh `data`. -/
theorem Read_err (m : Measurements) (net : Net) (now : Time) :
    (Read m net now).2 = (readMeter (SetMeterURL New m.meterURL) net).2 := by
  simp [Read]

/-- The receiver after `Read`, field by field. -/
theorem Read_fst (m : Measurements) (net : Net) (now : Time) :
    (Read m net now).1 =
      { Timestamp := now
        Power := if F64.gt (readMeter (SetMeterURL New m.meterURL) net).1.Power ThresholdWallbox
          then (readMeter (SetMeterURL New m.meterURL) net).1.Power else F64.val 0
        Energy := m.Energy
        State := if F64.gt (readMeter (SetMeterURL New m.meterURL) net).1.Power ThresholdWallbox
          then On else Off
        Runtime := F64.val 0
        meterURL := m.meterURL } := by
  have hr := readMeter_Runtime (SetMeterURL New m.meterURL) net
  simp only [Read]
  split <;> simp_all [SetMeterURL, New]

/-! ## One loop iteration -/

/-- A cycle whose `Read` returns an error is skipped. -/
theorem calcRuntimeCycle_skip (r : heatPumpRuntime) (net : Net) (tRead n1 n2 n3 : Time)
    (e : Error) (he : (Read r.data net tRead).2 = some e) :
    calcRuntimeCycle r net tRead n1 n2 n3 = r := by
  rcases hR : Read r.data net tRead with ⟨t, _ | e0⟩
  · rw [hR] at he; simp at he
  · simp only [calcRuntimeCycle, hR]

/-- A cycle whose `Read` succeeds publishes the copy and adds the closure's result. -/
theorem calcRuntimeCycle_publish (r : heatPumpRuntime) (net : Net) (tRead n1 n2 n3 : Time)
    (he : (Read r.data net tRead).2 = none) :
    calcRuntimeCycle r net tRead n1 n2 n3 =
      { data := { (Read r.data net tRead).1 with
          Runtime := F64.add (Read r.data net tRead).1.Runtime
            (runtime (Read r.data net tRead).1.State r.lastStateDate r.lastState n1 n2 n3).1 }
        lastState :=
          (runtime (Read r.data net tRead).1.State r.lastStateDate r.lastState n1 n2 n3).2.2
        lastRuntime := r.lastRuntime
        lastStateDate :=
          (runtime (Read r.data net tRead).1.State r.lastStateDate r.lastState n1 n2 n3).2.1 } := by
  rcases hR : Read r.data net tRead with ⟨t, _ | e0⟩
  · simp only [calcRuntimeCycle, hR]
  · rw [hR] at he; simp at he

/-! ## The sample readings -/

theorem measurand_sampleReading (p h b i : ℚ) :
    measurand (sampleReading p h b i) "primarymeter" "p" = some (F64.val p) ∧
    measurand (sampleReading p h b i) "heatpump" "p" = some (F64.val h) ∧
    measurand (sampleReading p h b i) "boiler" "p" = some (F64.val b) ∧
    measurand (sampleReading p h b i) "inverter" "p" = some (F64.val i) := by
  simp [measurand, sampleReading, meterP, List.lookup]

theorem readMeter_sampleReading (m : Measurements) (p h b i : ℚ) :
    readMeter m (fun _ => .ok (sampleReading p h b i))
      = ({ m with Power := F64.val (p - h - b + i) }, none) := by
  have hm := measurand_sampleReading p h b i
  rw [readMeter_found m _ (sampleReading p h b i) (F64.val p) (F64.val h)
    (F64.val b) (F64.val i) rfl (power_of_measurand _ _ _ hm.2.2.1)
    (power_of_measurand _ _ _ hm.2.1) (power_of_measurand _ _ _ hm.2.2.2)
    (power_of_measurand _ _ _ hm.1)]
  simp [F64.add, F64.sub]

theorem readMeter_sampleOn (m : Measurements) :
    readMeter m (fun _ => .ok sampleOn) = ({ m with Power := F64.val 11400 }, none) := by
  rw [sampleOn, readMeter_sampleReading]; norm_num

theorem readMeter_sampleOff (m : Measurements) :
    readMeter m (fun _ => .ok sampleOff) = ({ m with Power := F64.val 9400 }, none) := by
  rw [sampleOff, readMeter_sampleReading]; norm_num

theorem readMeter_sampleThreshold (m : Measurements) :
    readMeter m (fun _ => .ok sampleThreshold) = ({ m with Power := F64.val 11000 }, none) := by
  rw [sampleThreshold, readMeter_sampleReading]; norm_num

theorem Read_sampleOn (m : Measurements) (now : Time) :
    Read m (fun _ => .ok sampleOn) now =
      ({ Timestamp := now, Power := F64.val 11400, Energy := m.Energy, State := On,
         Runtime := F64.val 0, meterURL := m.meterURL }, none) := by
  apply Prod.ext
  · rw [Read_fst, readMeter_sampleOn]
    norm_num [F64.gt, ThresholdWallbox]
  · rw [Read_err, readMeter_sampleOn]

theorem Read_sampleOff (m : Measurements) (now : Time) :
    Read m (fun _ => .ok sampleOff) now =
      ({ Timestamp := now, Power := F64.val 0, Energy := m.Energy, State := Off,
         Runtime := F64.val 0, meterURL := m.meterURL }, none) := by
  apply Prod.ext
  · rw [Read_fst, readMeter_sampleOff]
    norm_num [F64.gt, ThresholdWallbox]
  · rw [Read_err, readMeter_sampleOff]

/-! ## Runtime accounting of the polling loop -/

/-- C1 (evaluated at the failing input).  Starting from the snapshot `sampleData`,
which holds five accumulated hours, one successful poll cycle publishes a
runtime of zero hours, once for a reading classified off and once for a reading
classified on: the published runtime after the cycle is smaller than before. -/
theorem calcRuntimeCycle_runtime_drops :
    sampleRuntime.data.Runtime = F64.val 5 ∧
    (calcRuntimeCycle sampleRuntime (fun _ => .ok sampleOff)
      (60 * Second) (60 * Second) (60 * Second) (60 * Second)).data.Runtime = F64.val 0 ∧
    (calcRuntimeCycle sampleRuntime (fun _ => .ok sampleOn)
      (60 * Second) (60 * Second) (60 * Second) (60 * Second)).data.Runtime = F64.val 0 ∧
    F64.ge (calcRuntimeCycle sampleRuntime (fun _ => .ok sampleOff)
      (60 * Second) (60 * Second) (60 * Second) (60 * Second)).data.Runtime
      sampleRuntime.data.Runtime = false := by
  have hOff : (calcRuntimeCycle sampleRuntime (fun _ => .ok sampleOff)
      (60 * Second) (60 * Second) (60 * Second) (60 * Second)).data.Runtime = F64.val 0 := by
    rw [calcRuntimeCycle_publish _ _ _ _ _ _ (by rw [Read_sampleOff])]
    simp only [Read_sampleOff, runtime_not_on Off Off_ne_On]
    simp [F64.add]
  have hOn : (calcRuntimeCycle sampleRuntime (fun _ => .ok sampleOn)
      (60 * Second) (60 * Second) (60 * Second) (60 * Second)).data.Runtime = F64.val 0 := by
    rw [calcRuntimeCycle_publish _ _ _ _ _ _ (by rw [Read_sampleOn])]
    simp only [Read_sampleOn, runtime_on]
    simp [F64.add, Hours, Since, sampleRuntime, Off_ne_On]
  refine ⟨rfl, hOff, hOn, ?_⟩
  rw [hOff]
  norm_num [sampleRuntime, sampleData, F64.ge]

/-- C2.  With one clock reading `now` for the whole call, the `runtime` closure
returns what the specification's `accrue` returns: on an `On` cycle the delta is
`now - T` in hours, where `T` is `now` when the last state was not `On` and the
stored transition time otherwise, and the stored transition time becomes `now`;
on any other cycle the delta is zero and the stored transition time is kept; in
both cases the stored last state becomes the new state. -/
theorem runtime_refines_accrue (newState lastState : State) (lastTransitionTime now : Time) :
    ((runtime newState lastTransitionTime lastState now now now).1
        = (accrue newState now lastState lastTransitionTime).1 ∧
      (runtime newState lastTransitionTime lastState now now now).2.2
        = (accrue newState now lastState lastTransitionTime).2.1 ∧
      (runtime newState lastTransitionTime lastState now now now).2.1
        = (accrue newState now lastState lastTransitionTime).2.2) ∧
    (newState = On →
      (runtime newState lastTransitionTime lastState now now now).1
        = Hours (now - (if lastState ≠ On then now else lastTransitionTime)) ∧
      (runtime newState lastTransitionTime lastState now now now).2.1 = now) ∧
    (newState ≠ On →
      (runtime newState lastTransitionTime lastState now now now).1 = F64.val 0 ∧
      (runtime newState lastTransitionTime lastState now now now).2.1 = lastTransitionTime) ∧
    (runtime newState lastTransitionTime lastState now now now).2.2 = newState := by
  by_cases h : newState = On
  · subst h
    simp [runtime, accrue, Since]
  · simp [runtime, accrue, h]

/-- C3 (the claim fails).  The sample reading is classified `On` with derived power
11400, and with last state `Off`, transition time `T0 = 0` and every clock
reading of the cycle at `T0 + 60 s`, the delta returned by the closure is zero
hours, which is not one minute, and differs from `now - lastTransitionTime`. -/
theorem runtime_off_on_not_one_minute :
    (Read sampleData (fun _ => .ok sampleOn) (0 + 60 * Second)).1.State = On ∧
    (Read sampleData (fun _ => .ok sampleOn) (0 + 60 * Second)).1.Power = F64.val 11400 ∧
    (runtime On 0 Off (0 + 60 * Second) (0 + 60 * Second) (0 + 60 * Second)).1 = F64.val 0 ∧
    (runtime On 0 Off (0 + 60 * Second) (0 + 60 * Second) (0 + 60 * Second)).1
      ≠ F64.val (1 / 60) ∧
    (runtime On 0 Off (0 + 60 * Second) (0 + 60 * Second) (0 + 60 * Second)).1
      ≠ Hours ((0 + 60 * Second) - 0) := by
  have h0 : (runtime On 0 Off (0 + 60 * Second) (0 + 60 * Second) (0 + 60 * Second)).1
      = F64.val 0 := by
    simp [runtime_on, Off_ne_On, Hours, Since]
  refine ⟨by rw [Read_sampleOn], by rw [Read_sampleOn], h0, ?_, ?_⟩
  · rw [h0]; norm_num
  · rw [h0]; norm_num [Hours, Hour, Second]

/-- C3 (amended).  On an `On` cycle that follows a cycle that was not `On`, the
closure first moves the stored transition time to the clock, so the delta is the
time between its own two clock readings `n1` and `n2`, whatever the stored
transition time `T0` was; with a single clock reading `now` the delta is zero
hours.  The stored transition time becomes the last clock reading and the
stored state `On`. -/
theorem runtime_off_on_delta (T0 : Time) (lastState : State) (n1 n2 n3 now : Time)
    (h : lastState ≠ On) :
    (runtime On T0 lastState n1 n2 n3).1 = Hours (n2 - n1) ∧
    (runtime On T0 lastState now now now).1 = F64.val 0 ∧
    (runtime On T0 lastState n1 n2 n3).2.1 = n3 ∧
    (runtime On T0 lastState n1 n2 n3).2.2 = On := by
  simp [runtime_on, h, Since, Hours]

/-- C3 (amended), at the scenario: last state `Off`, `T0 = 0`, polled at `T0 + 60 s`. -/
theorem runtime_off_on_delta_witness :
    Off ≠ On ∧
    (runtime On 0 Off (0 + 60 * Second) (0 + 60 * Second) (0 + 60 * Second)).1 = F64.val 0 :=
  ⟨Off_ne_On,
    (runtime_off_on_delta 0 Off (0 + 60 * Second) (0 + 60 * Second) (0 + 60 * Second)
      (0 + 60 * Second) Off_ne_On).2.1⟩

/-! ## Aggregation and classification -/

/-- C4.  When the decoded reading carries a `"p"` measurand for the primary meter,
the heatpump, the boiler and the inverter, `readMeter` returns no error and
stores `primary - heatpump - boiler + inverter` in `Power`, leaving every other
field of the receiver as it was. -/
theorem readMeter_derived_power (m : Measurements) (net : Net) (r : currentDataURLBody)
    (primary heatpump boiler inverter : ℚ) (hnet : net m.meterURL = .ok r)
    (hp : measurand r "primarymeter" "p" = some (F64.val primary))
    (hh : measurand r "heatpump" "p" = some (F64.val heatpump))
    (hb : measurand r "boiler" "p" = some (F64.val boiler))
    (hi : measurand r "inverter" "p" = some (F64.val inverter)) :
    readMeter m net
      = ({ m with Power := F64.val (primary - heatpump - boiler + inverter) }, none) := by
  rw [readMeter_found m net r _ _ _ _ hnet (power_of_measurand _ _ _ hb)
    (power_of_measurand _ _ _ hh) (power_of_measurand _ _ _ hi) (power_of_measurand _ _ _ hp)]
  simp [F64.add, F64.sub]

/-- C4 at the reading primary 12000, heatpump 500, boiler 300, inverter 200: the
stored power is 11400. -/
theorem readMeter_derived_power_witness :
    (readMeter sampleData (fun _ => .ok sampleOn)).2 = none ∧
    (readMeter sampleData (fun _ => .ok sampleOn)).1.Power
      = F64.val (12000 - 500 - 300 + 200) ∧
    (12000 - 500 - 300 + 200 : ℚ) = 11400 := by
  have h := readMeter_derived_power sampleData (fun _ => .ok sampleOn) sampleOn
    12000 500 300 200 rfl (measurand_sampleReading 12000 500 300 200).1
    (measurand_sampleReading 12000 500 300 200).2.1
    (measurand_sampleReading 12000 500 300 200).2.2.1
    (measurand_sampleReading 12000 500 300 200).2.2.2
  refine ⟨by rw [h], by rw [h], by norm_num⟩

/-- C5.  When the derived power stored by `readMeter` in the fresh `data` is `p`,
the state published by `Read` is `On` exactly when `p > 11000`, and `Off`
otherwise; at `p = 11000` it is `Off`. -/
theorem Read_state_threshold (m : Measurements) (net : Net) (now : Time) (p : ℚ)
    (hp : (readMeter (SetMeterURL New m.meterURL) net).1.Power = F64.val p) :
    ((Read m net now).1.State = On ↔ p > 11000) ∧
    ((Read m net now).1.State = Off ↔ ¬ p > 11000) ∧
    (p = 11000 → (Read m net now).1.State = Off) := by
  rw [Read_fst, hp]
  simp only [F64.gt, ThresholdWallbox]
  by_cases h : (11000 : ℚ) < p
  · simp only [h, decide_True, if_true, gt_iff_lt, iff_true, not_true_eq_false, iff_false,
      true_and]
    exact ⟨On_ne_Off, fun h1 => absurd h (by rw [h1]; exact lt_irrefl _)⟩
  · simp only [h, decide_False, Bool.false_eq_true, if_false, gt_iff_lt, not_false_eq_true,
      iff_true, implies_true, and_true, iff_false, true_and]
    exact Off_ne_On

/-- C5 at the boundary: a reading whose derived power is exactly 11000 is published `Off`. -/
theorem Read_state_threshold_witness :
    (readMeter (SetMeterURL New sampleData.meterURL) (fun _ => .ok sampleThreshold)).1.Power
      = F64.val 11000 ∧
    (Read sampleData (fun _ => .ok sampleThreshold) 7).1.State = Off := by
  have hp : (readMeter (SetMeterURL New sampleData.meterURL)
      (fun _ => .ok sampleThreshold)).1.Power = F64.val 11000 := by
    rw [readMeter_sampleThreshold]
  exact ⟨hp, (Read_state_threshold sampleData (fun _ => .ok sampleThreshold) 7 11000 hp).2.2 rfl⟩

/-- C6.  After `Read` the published state is `On` or `Off`.  When it is `Off` the
published power is exactly zero; when it is `On` the published power is the raw
derived value stored by `readMeter`, which is greater than 11000 and therefore
not negative. -/
theorem Read_power_published (m : Measurements) (net : Net) (now : Time) :
    ((Read m net now).1.State = On ∨ (Read m net now).1.State = Off) ∧
    ((Read m net now).1.State = Off → (Read m net now).1.Power = F64.val 0) ∧
    ((Read m net now).1.State = On →
      (Read m net now).1.Power = (readMeter (SetMeterURL New m.meterURL) net).1.Power ∧
      F64.gt (Read m net now).1.Power (F64.val 11000) = true ∧
      F64.ge (Read m net now).1.Power (F64.val 0) = true) := by
  rw [Read_fst]
  cases hraw : (readMeter (SetMeterURL New m.meterURL) net).1.Power with
  | nan => simp [F64.gt, Off_ne_On]
  | val q =>
    by_cases h : (11000 : ℚ) < q
    · have h0 : (0 : ℚ) ≤ q := by linarith
      simp [F64.gt, F64.ge, ThresholdWallbox, h, h0, On_ne_Off]
    · simp [F64.gt, ThresholdWallbox, h, Off_ne_On]

/-- C6 at the reading primary 10000, heatpump 500, boiler 300, inverter 200: the
raw derived power is 9400, the published state is `Off` and the published power
is zero. -/
theorem Read_power_published_witness :
    (readMeter (SetMeterURL New sampleData.meterURL) (fun _ => .ok sampleOff)).1.Power
      = F64.val 9400 ∧
    (Read sampleData (fun _ => .ok sampleOff) 7).1.State = Off ∧
    (Read sampleData (fun _ => .ok sampleOff) 7).1.Power = F64.val 0 := by
  have hs : (Read sampleData (fun _ => .ok sampleOff) 7).1.State = Off := by
    rw [Read_sampleOff]
  exact ⟨by rw [readMeter_sampleOff], hs,
    (Read_power_published sampleData (fun _ => .ok sampleOff) 7).2.1 hs⟩

/-! ## Missing meters -/

/-- C7.  When the reading has a `"p"` measurand for the boiler (the one meter
looked up before the heatpump) and none for the heatpump, because there is no
`"heatpump"` entry or because its entry has no `"p"`, the heatpump lookup
returns `NaN` with the error naming `"heatpump"`, `readMeter` returns that
error, and the receiver, `Power` included, is what it was.  Whether the inverter
and the primary meter are present plays no part. -/
theorem readMeter_heatpump_missing (m : Measurements) (net : Net) (r : currentDataURLBody)
    (boiler : F64) (hnet : net m.meterURL = .ok r)
    (hb : measurand r "boiler" "p" = some boiler)
    (hmiss : r.Meter.lookup "heatpump" = none ∨
      ∃ b, r.Meter.lookup "heatpump" = some b ∧ b.Measurand.lookup "p" = none) :
    heatpumpP r = (F64.nan, some (Error.meterDoesntExists "heatpump")) ∧
    (readMeter m net).2 = some (Error.meterDoesntExists "heatpump") ∧
    (readMeter m net).1 = m ∧
    (readMeter m net).1.Power = m.Power := by
  have hh : heatpumpP r = (F64.nan, some (Error.meterDoesntExists "heatpump")) :=
    power_missing r "heatpump" hmiss
  have hbp : boilerP r = (boiler, none) := power_of_measurand r "boiler" boiler hb
  have hr : readMeter m net = (m, some (Error.meterDoesntExists "heatpump")) := by
    simp [readMeter, hnet, hbp, hh]
  exact ⟨hh, by rw [hr], by rw [hr], by rw [hr]⟩

/-- C7 at a reading that has the primary meter, boiler and inverter but no heatpump entry. -/
theorem readMeter_heatpump_missing_witness :
    measurand sampleNoHeatpump "boiler" "p" = some (F64.val 300) ∧
    sampleNoHeatpump.Meter.lookup "heatpump" = none ∧
    (readMeter sampleData (fun _ => .ok sampleNoHeatpump)).2
      = some (Error.meterDoesntExists "heatpump") ∧
    (readMeter sampleData (fun _ => .ok sampleNoHeatpump)).1.Power = sampleData.Power := by
  have hb : measurand sampleNoHeatpump "boiler" "p" = some (F64.val 300) := by
    simp [measurand, sampleNoHeatpump, meterP, List.lookup]
  have hm : sampleNoHeatpump.Meter.lookup "heatpump" = none := by
    simp [sampleNoHeatpump, meterP, List.lookup]
  have h := readMeter_heatpump_missing sampleData (fun _ => .ok sampleNoHeatpump)
    sampleNoHeatpump (F64.val 300) rfl hb (Or.inl hm)
  exact ⟨hb, hm, h.2.1, h.2.2.2⟩

/-- C8 (the claim fails).  For a reading without primary meter and without boiler,
the first missing meter in the order primary, heatpump, boiler, inverter is the
primary meter, yet the error returned by `readMeter` names the boiler. -/
theorem readMeter_missing_primary_and_boiler :
    firstMissing ["primarymeter", "heatpump", "boiler", "inverter"] sampleNoPrimaryNoBoiler
      = some "primarymeter" ∧
    (readMeter sampleData (fun _ => .ok sampleNoPrimaryNoBoiler)).2
      = some (Error.meterDoesntExists "boiler") ∧
    (readMeter sampleData (fun _ => .ok sampleNoPrimaryNoBoiler)).2
      ≠ (firstMissing ["primarymeter", "heatpump", "boiler", "inverter"]
          sampleNoPrimaryNoBoiler).map Error.meterDoesntExists := by
  have hf : firstMissing ["primarymeter", "heatpump", "boiler", "inverter"]
      sampleNoPrimaryNoBoiler = some "primarymeter" := by
    simp [firstMissing, measurand, sampleNoPrimaryNoBoiler, meterP, List.lookup, List.find?]
  have hb : boilerP sampleNoPrimaryNoBoiler
      = (F64.nan, some (Error.meterDoesntExists "boiler")) := by
    simp [boilerP, power, sampleNoPrimaryNoBoiler, meterP, List.lookup]
  have hr : (readMeter sampleData (fun _ => .ok sampleNoPrimaryNoBoiler)).2
      = some (Error.meterDoesntExists "boiler") := by
    simp [readMeter, hb]
  refine ⟨hf, hr, ?_⟩
  rw [hr, hf]
  simp

/-- C8 (amended).  For every decoded reading, the error returned by `readMeter` names
the first meter, in the order boiler, heatpump, inverter, primary meter, for
which the reading has no `"p"` measurand; there is no error when none is
missing. -/
theorem readMeter_error_first_missing (m : Measurements) (net : Net) (r : currentDataURLBody)
    (hnet : net m.meterURL = .ok r) :
    (readMeter m net).2 = (firstMissing lookupOrder r).map Error.meterDoesntExists := by
  simp only [readMeter, hnet, boilerP, heatpumpP, inverterP, primaryP, power_eq, firstMissing,
    lookupOrder, List.find?]
  cases measurand r "boiler" "p" <;> cases measurand r "heatpump" "p" <;>
    cases measurand r "inverter" "p" <;> cases measurand r "primarymeter" "p" <;> simp

/-- C8 (amended) at the reading without primary meter and without boiler: the error
names the boiler. -/
theorem readMeter_error_first_missing_witness :
    firstMissing lookupOrder sampleNoPrimaryNoBoiler = some "boiler" ∧
    (readMeter sampleData (fun _ => .ok sampleNoPrimaryNoBoiler)).2
      = (firstMissing lookupOrder sampleNoPrimaryNoBoiler).map Error.meterDoesntExists :=
  ⟨by simp [firstMissing, lookupOrder, measurand, sampleNoPrimaryNoBoiler, meterP,
      List.lookup, List.find?],
    readMeter_error_first_missing sampleData (fun _ => .ok sampleNoPrimaryNoBoiler)
      sampleNoPrimaryNoBoiler rfl⟩

/-! ## Failed cycles and consecutive `On` cycles -/

/-- C9.  A poll cycle whose `Read` returns an error leaves the snapshot (timestamp,
power, energy, state, runtime) and the transition state (last state, last
transition time) exactly as they were: the whole polling state is unchanged. -/
theorem calcRuntimeCycle_failed_read (r : heatPumpRuntime) (net : Net)
    (tRead n1 n2 n3 : Time) (e : Error) (he : (Read r.data net tRead).2 = some e) :
    (calcRuntimeCycle r net tRead n1 n2 n3).data = r.data ∧
    (calcRuntimeCycle r net tRead n1 n2 n3).lastState = r.lastState ∧
    (calcRuntimeCycle r net tRead n1 n2 n3).lastStateDate = r.lastStateDate ∧
    calcRuntimeCycle r net tRead n1 n2 n3 = r := by
  have h := calcRuntimeCycle_skip r net tRead n1 n2 n3 e he
  rw [h]
  exact ⟨rfl, rfl, rfl, rfl⟩

/-- C9 at a fetch that times out. -/
theorem calcRuntimeCycle_failed_read_witness :
    (Read sampleRuntime.data (fun _ => .error Error.timeout) (60 * Second)).2
      = some Error.timeout ∧
    calcRuntimeCycle sampleRuntime (fun _ => .error Error.timeout)
      (60 * Second) (60 * Second) (60 * Second) (60 * Second) = sampleRuntime := by
  have he : (Read sampleRuntime.data (fun _ => .error Error.timeout) (60 * Second)).2
      = some Error.timeout := by
    rw [Read_err, readMeter_fetch_error _ _ Error.timeout rfl]
  exact ⟨he, (calcRuntimeCycle_failed_read sampleRuntime (fun _ => .error Error.timeout)
    (60 * Second) (60 * Second) (60 * Second) (60 * Second) Error.timeout he).2.2.2⟩

/-- C10.  Two consecutive `On` calls of the closure at clock readings `t1 ≤ t2`: the
second call returns `t2 - t1` in hours, a non-negative value, whatever
transition time `T` and whatever last state (`Off` in particular) were stored
before the first call. -/
theorem runtime_on_on_delta (T : Time) (lastState : State) (t1 t2 : Time) (ht : t1 ≤ t2) :
    (runtime On (runtime On T lastState t1 t1 t1).2.1 (runtime On T lastState t1 t1 t1).2.2
      t2 t2 t2).1 = Hours (t2 - t1) ∧
    F64.ge (runtime On (runtime On T lastState t1 t1 t1).2.1
      (runtime On T lastState t1 t1 t1).2.2 t2 t2 t2).1 (F64.val 0) = true := by
  have h1 : (runtime On (runtime On T lastState t1 t1 t1).2.1
      (runtime On T lastState t1 t1 t1).2.2 t2 t2 t2).1 = Hours (t2 - t1) := by
    simp [runtime_on, Since]
  refine ⟨h1, ?_⟩
  rw [h1]
  have hq : (0 : ℚ) ≤ ((t2 - t1 : Int) : ℚ) / (Hour : ℚ) := by
    apply div_nonneg
    · exact_mod_cast sub_nonneg.mpr ht
    · norm_num [Hour]
  simpa [Hours, F64.ge] using hq

/-- C10 after an `Off` cycle, with the `On` cycles at 60 s and 120 s and a stored
transition time of zero: the second delta is one minute. -/
theorem runtime_on_on_delta_witness :
    (runtime On (runtime On 0 Off (60 * Second) (60 * Second) (60 * Second)).2.1
      (runtime On 0 Off (60 * Second) (60 * Second) (60 * Second)).2.2
      (120 * Second) (120 * Second) (120 * Second)).1 = Hours (120 * Second - 60 * Second) ∧
    Hours (120 * Second - 60 * Second) = F64.val (1 / 60) :=
  ⟨(runtime_on_on_delta 0 Off (60 * Second) (120 * Second) (by norm_num [Second])).1,
    by norm_num [Hours, Hour, Second]⟩

/-! ## Runs of the polling loop -/

theorem F64_zero_add (x : F64) : F64.add (F64.val 0) x = x := by
  cases x <;> simp [F64.add]

/-- The method `Read` always leaves a runtime of zero in its receiver. -/
theorem Read_Runtime (m : Measurements) (net : Net) (now : Time) :
    (Read m net now).1.Runtime = F64.val 0 := by
  rw [Read_fst]

theorem calcRuntime_append (r : heatPumpRuntime) (xs ys : List (Net × Time × Time × Time × Time)) :
    calcRuntime r (xs ++ ys) = calcRuntime (calcRuntime r xs) ys := by
  induction xs generalizing r with
  | nil => rfl
  | cons c rest ih =>
    obtain ⟨net, tRead, n1, n2, n3⟩ := c
    simp only [List.cons_append, calcRuntime]
    exact ih _

/-- A run made of failed cycles only changes nothing. -/
theorem calcRuntime_all_failed (r : heatPumpRuntime)
    (fails : List (Net × Time × Time × Time × Time))
    (h : ∀ c ∈ fails, (Read r.data c.1 c.2.1).2 ≠ none) : calcRuntime r fails = r := by
  induction fails with
  | nil => rfl
  | cons c rest ih =>
    obtain ⟨net, tRead, n1, n2, n3⟩ := c
    have hc : (Read r.data net tRead).2 ≠ none := h (net, tRead, n1, n2, n3) (List.mem_cons_self _ _)
    obtain ⟨e, he⟩ := Option.ne_none_iff_exists'.mp hc
    simp only [calcRuntime]
    rw [calcRuntimeCycle_skip r net tRead n1 n2 n3 e he]
    exact ih (fun c hm => h c (List.mem_cons_of_mem _ hm))

/-- A successful `On` cycle with a single clock reading `t`. -/
theorem calcRuntimeCycle_on (r : heatPumpRuntime) (net : Net) (t : Time)
    (he : (Read r.data net t).2 = none) (hOn : (Read r.data net t).1.State = On) :
    (calcRuntimeCycle r net t t t t).lastState = On ∧
    (calcRuntimeCycle r net t t t t).lastStateDate = t ∧
    (calcRuntimeCycle r net t t t t).data.Runtime
      = Hours (t - (if r.lastState ≠ On then t else r.lastStateDate)) := by
  rw [calcRuntimeCycle_publish r net t t t t he, hOn]
  simp [runtime_on, Read_Runtime, F64_zero_add, Since]

/-- The runtime held by the receiver plays no part in `Read`. -/
theorem Read_Runtime_irrelevant (m : Measurements) (x : F64) (net : Net) (now : Time) :
    Read { m with Runtime := x } net now = Read m net now := by
  apply Prod.ext
  · rw [Read_fst, Read_fst]
  · rw [Read_err, Read_err]

/-- C11.  A run of the loop made of a successful `On` cycle at `t0`, any number of
failed cycles (one or more in particular) and a successful `On` cycle at
`t2 ≥ t0`.  `r1` is the polling state after the cycle at `t0`.  The failed
cycles leave the polling state at `r1`; the delta returned by the closure in the
cycle at `t2` is `t2 - t0` in hours, and that is the runtime published at the
end of the run; it is not negative. -/
theorem calcRuntime_gap_after_failures (r r1 : heatPumpRuntime) (net0 net2 : Net)
    (fails : List (Net × Time × Time × Time × Time)) (t0 t2 : Time)
    (h0 : (Read r.data net0 t0).2 = none) (hOn0 : (Read r.data net0 t0).1.State = On)
    (hr1 : r1 = calcRuntimeCycle r net0 t0 t0 t0 t0)
    (hfail : ∀ c ∈ fails, (Read r1.data c.1 c.2.1).2 ≠ none)
    (h2 : (Read r1.data net2 t2).2 = none) (hOn2 : (Read r1.data net2 t2).1.State = On)
    (ht : t0 ≤ t2) :
    calcRuntime r ((net0, t0, t0, t0, t0) :: fails) = r1 ∧
    (runtime (Read r1.data net2 t2).1.State r1.lastStateDate r1.lastState t2 t2 t2).1
      = Hours (t2 - t0) ∧
    (calcRuntime r ((net0, t0, t0, t0, t0) :: fails ++ [(net2, t2, t2, t2, t2)])).data.Runtime
      = Hours (t2 - t0) ∧
    F64.ge (Hours (t2 - t0)) (F64.val 0) = true := by
  obtain ⟨hls, hlsd, -⟩ := calcRuntimeCycle_on r net0 t0 h0 hOn0
  rw [← hr1] at hls hlsd
  have hrun : calcRuntime r ((net0, t0, t0, t0, t0) :: fails) = r1 := by
    simp only [calcRuntime]
    rw [← hr1]
    exact calcRuntime_all_failed r1 fails hfail
  have hdelta : (runtime (Read r1.data net2 t2).1.State r1.lastStateDate r1.lastState
      t2 t2 t2).1 = Hours (t2 - t0) := by
    rw [hOn2, hls, hlsd]
    simp [runtime_on, Since]
  have hlast : (calcRuntime r ((net0, t0, t0, t0, t0) :: fails
      ++ [(net2, t2, t2, t2, t2)])).data.Runtime = Hours (t2 - t0) := by
    rw [calcRuntime_append, hrun]
    simp only [calcRuntime]
    rw [(calcRuntimeCycle_on r1 net2 t2 h2 hOn2).2.2, hls, hlsd]
    simp
  have hq : (0 : ℚ) ≤ ((t2 - t0 : Int) : ℚ) / (Hour : ℚ) := by
    apply div_nonneg
    · exact_mod_cast sub_nonneg.mpr ht
    · norm_num [Hour]
  exact ⟨hrun, hdelta, hlast, by simpa [Hours, F64.ge] using hq⟩

/-- C11 with the `On` cycles at 60 s and 120 s and one timed-out cycle at 90 s in
between: the run ends with a published runtime of one minute. -/
theorem calcRuntime_gap_after_failures_witness :
    (calcRuntime sampleRuntime ((fun _ => .ok sampleOn, 60 * Second, 60 * Second, 60 * Second,
        60 * Second) :: [(fun _ => .error Error.timeout, 90 * Second, 90 * Second,
        90 * Second, 90 * Second)] ++ [(fun _ => .ok sampleOn, 120 * Second, 120 * Second,
        120 * Second, 120 * Second)])).data.Runtime = Hours (120 * Second - 60 * Second) ∧
    Hours (120 * Second - 60 * Second) = F64.val (1 / 60) :=
  ⟨(calcRuntime_gap_after_failures sampleRuntime _ (fun _ => .ok sampleOn)
      (fun _ => .ok sampleOn)
      [(fun _ => .error Error.timeout, 90 * Second, 90 * Second, 90 * Second, 90 * Second)]
      (60 * Second) (120 * Second) (by rw [Read_sampleOn]) (by rw [Read_sampleOn]) rfl
      (by
        intro c hc
        rw [List.mem_singleton] at hc
        subst hc
        rw [Read_err, readMeter_fetch_error _ _ Error.timeout rfl]
        simp)
      (by rw [Read_sampleOn]) (by rw [Read_sampleOn]) (by norm_num [Second])).2.2.1,
    by norm_num [Hours, Hour, Second]⟩

/-- C14.  In a successful poll cycle `Read` leaves a runtime of zero in the copy, so
the runtime published after the cycle is exactly the delta returned by the
closure in that cycle; replacing the runtime held by the snapshot before the
cycle by any other value changes nothing of the outcome. -/
theorem calcRuntimeCycle_runtime_is_delta (r : heatPumpRuntime) (net : Net)
    (tRead n1 n2 n3 : Time) (he : (Read r.data net tRead).2 = none) :
    (Read r.data net tRead).1.Runtime = F64.val 0 ∧
    (calcRuntimeCycle r net tRead n1 n2 n3).data.Runtime
      = (runtime (Read r.data net tRead).1.State r.lastStateDate r.lastState n1 n2 n3).1 ∧
    ∀ x : F64,
      calcRuntimeCycle { r with data := { r.data with Runtime := x } } net tRead n1 n2 n3
        = calcRuntimeCycle r net tRead n1 n2 n3 := by
  refine ⟨Read_Runtime _ _ _, ?_, ?_⟩
  · rw [calcRuntimeCycle_publish r net tRead n1 n2 n3 he]
    simp only [Read_Runtime, F64_zero_add]
  · intro x
    have hx : (Read ({ r with data := { r.data with Runtime := x } } : heatPumpRuntime).data
        net tRead).2 = none := by
      rw [show ({ r with data := { r.data with Runtime := x } } : heatPumpRuntime).data
        = { r.data with Runtime := x } from rfl, Read_Runtime_irrelevant]
      exact he
    rw [calcRuntimeCycle_publish _ net tRead n1 n2 n3 hx,
      calcRuntimeCycle_publish r net tRead n1 n2 n3 he]
    simp only [Read_Runtime_irrelevant]

/-- C14 at a snapshot holding five hours, last seen on at time zero, polled on at
60 s: the published runtime is the delta of one minute, not five hours and a minute. -/
theorem calcRuntimeCycle_runtime_is_delta_witness :
    sampleRuntimeOn.data.Runtime = F64.val 5 ∧
    (calcRuntimeCycle sampleRuntimeOn (fun _ => .ok sampleOn)
      (60 * Second) (60 * Second) (60 * Second) (60 * Second)).data.Runtime
      = F64.val (1 / 60) := by
  have h := (calcRuntimeCycle_runtime_is_delta sampleRuntimeOn (fun _ => .ok sampleOn)
    (60 * Second) (60 * Second) (60 * Second) (60 * Second) (by rw [Read_sampleOn])).2.1
  rw [Read_sampleOn] at h
  refine ⟨rfl, ?_⟩
  rw [h]
  norm_num [runtime_on, sampleRuntimeOn, Hours, Since, Hour, Second]

/-- C15.  When `readMeter` fails on the fresh `data`, `Read` returns that error and
still overwrites its receiver: state `Off`, power zero, runtime zero and the
clock as timestamp; energy and the meter URL are what they were. -/
theorem Read_error_overwrites (m : Measurements) (net : Net) (now : Time) (e : Error)
    (he : (readMeter (SetMeterURL New m.meterURL) net).2 = some e) :
    Read m net now =
      ({ Timestamp := now, Power := F64.val 0, Energy := m.Energy, State := Off,
         Runtime := F64.val 0, meterURL := m.meterURL }, some e) := by
  have hd := readMeter_error_unchanged (SetMeterURL New m.meterURL) net e he
  apply Prod.ext
  · rw [Read_fst, hd]
    simp [SetMeterURL, New, F64.gt, ThresholdWallbox]
  · rw [Read_err, he]

/-- C15 at a receiver that is on with 11400 W and five hours, when the fetch times out. -/
theorem Read_error_overwrites_witness :
    (readMeter (SetMeterURL New sampleDataOn.meterURL) (fun _ => .error Error.timeout)).2
      = some Error.timeout ∧
    Read sampleDataOn (fun _ => .error Error.timeout) 7 =
      ({ Timestamp := 7, Power := F64.val 0, Energy := sampleDataOn.Energy, State := Off,
         Runtime := F64.val 0, meterURL := sampleDataOn.meterURL }, some Error.timeout) :=
  ⟨by rw [readMeter_fetch_error _ _ Error.timeout rfl],
    Read_error_overwrites sampleDataOn (fun _ => .error Error.timeout) 7 Error.timeout
      (by rw [readMeter_fetch_error _ _ Error.timeout rfl])⟩

end Wallbox

namespace Dbg

/-! ## Log levels -/

/-- C12.  After `SetDebug w f` each of the six loggers writes to `w` when its own
level bit is set in `f` and to `ioutil.Discard` otherwise, so that for a writer
`w` other than `ioutil.Discard` it writes to `w` exactly when its bit is set.
`Standard` switches on the info, warning, error and fatal loggers and leaves the
debug and trace loggers discarding, `Full` switches on all six, and the mask
`Info` alone leaves the error logger discarding. -/
theorem SetDebug_levels (w : Writer) (f : Int) :
    ((SetDebug w f).InfoLog.out = (if Int.land f Info ≠ 0 then w else Writer.Discard) ∧
      (SetDebug w f).WarningLog.out = (if Int.land f Warning ≠ 0 then w else Writer.Discard) ∧
      (SetDebug w f).ErrorLog.out = (if Int.land f Error ≠ 0 then w else Writer.Discard) ∧
      (SetDebug w f).DebugLog.out = (if Int.land f Debug ≠ 0 then w else Writer.Discard) ∧
      (SetDebug w f).TraceLog.out = (if Int.land f Trace ≠ 0 then w else Writer.Discard) ∧
      (SetDebug w f).FatalLog.out = (if Int.land f Fatal ≠ 0 then w else Writer.Discard)) ∧
    (w ≠ Writer.Discard →
      ((SetDebug w f).InfoLog.out = w ↔ Int.land f Info ≠ 0) ∧
      ((SetDebug w f).WarningLog.out = w ↔ Int.land f Warning ≠ 0) ∧
      ((SetDebug w f).ErrorLog.out = w ↔ Int.land f Error ≠ 0) ∧
      ((SetDebug w f).DebugLog.out = w ↔ Int.land f Debug ≠ 0) ∧
      ((SetDebug w f).TraceLog.out = w ↔ Int.land f Trace ≠ 0) ∧
      ((SetDebug w f).FatalLog.out = w ↔ Int.land f Fatal ≠ 0)) ∧
    ((SetDebug w Standard).InfoLog.out = w ∧ (SetDebug w Standard).WarningLog.out = w ∧
      (SetDebug w Standard).ErrorLog.out = w ∧ (SetDebug w Standard).FatalLog.out = w ∧
      (SetDebug w Standard).DebugLog.out = Writer.Discard ∧
      (SetDebug w Standard).TraceLog.out = Writer.Discard) ∧
    ((SetDebug w Full).InfoLog.out = w ∧ (SetDebug w Full).WarningLog.out = w ∧
      (SetDebug w Full).ErrorLog.out = w ∧ (SetDebug w Full).FatalLog.out = w ∧
      (SetDebug w Full).DebugLog.out = w ∧ (SetDebug w Full).TraceLog.out = w) ∧
    (SetDebug w Info).InfoLog.out = w ∧
    (SetDebug w Info).ErrorLog.out = Writer.Discard := by
  have hS : Int.land Standard Info ≠ 0 ∧ Int.land Standard Warning ≠ 0 ∧
      Int.land Standard Error ≠ 0 ∧ Int.land Standard Fatal ≠ 0 ∧
      Int.land Standard Debug = 0 ∧ Int.land Standard Trace = 0 := by decide
  have hF : Int.land Full Info ≠ 0 ∧ Int.land Full Warning ≠ 0 ∧
      Int.land Full Error ≠ 0 ∧ Int.land Full Fatal ≠ 0 ∧
      Int.land Full Debug ≠ 0 ∧ Int.land Full Trace ≠ 0 := by decide
  have hI : Int.land Info Info ≠ 0 ∧ Int.land Info Error = 0 := by decide
  refine ⟨⟨rfl, rfl, rfl, rfl, rfl, rfl⟩, ?_, ?_, ?_, ?_, ?_⟩
  · intro hw
    have key : ∀ c : Prop, [Decidable c] → ((if c then w else Writer.Discard) = w ↔ c) := by
      intro c _
      by_cases hc : c
      · simp [hc]
      · simp only [hc, if_false, iff_false]
        exact fun h => hw h.symm
    exact ⟨key _, key _, key _, key _, key _, key _⟩
  · simp [SetDebug, hS.1, hS.2.1, hS.2.2.1, hS.2.2.2.1, hS.2.2.2.2.1, hS.2.2.2.2.2]
  · simp [SetDebug, hF.1, hF.2.1, hF.2.2.1, hF.2.2.2.1, hF.2.2.2.2.1, hF.2.2.2.2.2]
  · simp [SetDebug, hI.1]
  · simp [SetDebug, hI.2]

/-- C12 at a writer other than `ioutil.Discard` and the mask `Standard`: the info
logger writes to it and its bit is set. -/
theorem SetDebug_levels_witness :
    Writer.other 1 ≠ Writer.Discard ∧
    ((SetDebug (Writer.other 1) Standard).InfoLog.out = Writer.other 1 ↔
      Int.land Standard Info ≠ 0) :=
  ⟨by decide, ((SetDebug_levels (Writer.other 1) Standard).2.1 (by decide)).1⟩

end Dbg
